import Mathlib

/-
  Verification of the MACAnalyzer core (src/macanalyzer.py).

  Shallow embedding of the three core operations:
    * parse_oui_database (registry text -> prefix table),
    * parse_mac_address  (normalize/validate a MAC, extract OUI and flag bits),
    * explain_flags      (two human-readable flag explanation strings),
    * analyze_mac        (compose the above into an analysis result).

  Python dicts are embedded as association lists with Python's update
  semantics (existing key overwritten in place, new key appended).
  Python's `re.match(r'^[0-9a-f]{12}$', s)` is embedded with Python's `$`
  semantics: it also accepts a single trailing newline after the 12 hex
  digits.  Character classes are modelled on code points (ASCII), which
  covers every character the source's regexes and string literals use.
-/

/-- The regex class [0-9a-f]: code points 48..57 ('0'..'9') and 97..102 ('a'..'f'). -/
def isHexLower (c : Char) : Bool :=
  decide ((48 ≤ c.toNat ∧ c.toNat ≤ 57) ∨ (97 ≤ c.toNat ∧ c.toNat ≤ 102))

/-- The regex class [0-9A-F]: code points 48..57 ('0'..'9') and 65..70 ('A'..'F'). -/
def isHexUpper (c : Char) : Bool :=
  decide ((48 ≤ c.toNat ∧ c.toNat ≤ 57) ∨ (65 ≤ c.toNat ∧ c.toNat ≤ 70))

/-- The regex class `\s` restricted to ASCII: space, tab, newline,
carriage return, vertical tab, form feed. -/
def isPySpace (c : Char) : Bool :=
  decide (c.toNat = 32 ∨ c.toNat = 9 ∨ c.toNat = 10 ∨ c.toNat = 13 ∨
          c.toNat = 11 ∨ c.toNat = 12)

/-- The separator class removed by `re.sub(r'[.:-]', '', mac)`:
'.' (46), ':' (58), '-' (45). -/
def isSep (c : Char) : Bool :=
  decide (c.toNat = 46 ∨ c.toNat = 58 ∨ c.toNat = 45)

/-- Python `str.lower()` on an ASCII character: 'A'..'Z' (65..90) shifts
down by 32, everything else is unchanged. -/
def pyLower (c : Char) : Char :=
  if 65 ≤ c.toNat ∧ c.toNat ≤ 90 then Char.ofNat (c.toNat + 32) else c

/-- The normalization step of `parse_mac_address`:
`re.sub(r'[.:-]', '', mac).lower()` — drop every '.', ':', '-', then
lower-case. -/
def normalizeMac (s : String) : List Char :=
  (s.data.filter (fun c => !isSep c)).map pyLower

/-- Python `re.match(r'^[0-9a-f]{12}$', s)` viewed as a Boolean test.
Python's `$` (without re.MULTILINE) matches at the end of the string or
just before a newline that ends the string, so the test accepts exactly:
12 lowercase-hex characters, or 12 lowercase-hex characters followed by a
single '\n'. -/
def macRegexOk (cs : List Char) : Bool :=
  (decide (cs.length = 12) && cs.all isHexLower) ||
  (decide (cs.length = 13) && (cs.take 12).all isHexLower &&
    decide (cs.drop 12 = ['\n']))

/-- Value of a single hex digit, as `int(·, 16)` assigns it.  Characters
outside [0-9a-fA-F] never reach this function on the paths the source
takes (the address is validated first); they are mapped to 0. -/
def hexVal (c : Char) : Nat :=
  if 48 ≤ c.toNat ∧ c.toNat ≤ 57 then c.toNat - 48
  else if 97 ≤ c.toNat ∧ c.toNat ≤ 102 then c.toNat - 87
  else if 65 ≤ c.toNat ∧ c.toNat ≤ 70 then c.toNat - 55
  else 0

/-- `int(mac[0:2], 16)`: the first two characters of the normalized
address read as a 2-digit hex integer. -/
def firstByte (m : List Char) : Nat :=
  16 * hexVal (m.getD 0 '0') + hexVal (m.getD 1 '0')

/-- The flags dictionary of the source: string keys "U/L" and "I/G"
mapped to booleans. -/
abbrev FlagsDict := List (String × Bool)

/-- `parse_mac_address(mac)`: normalize, validate against
`^[0-9a-f]{12}$`, and on success return the first six characters (the
OUI) together with the flags dictionary built from the first byte.
Returns `none` where the source returns `(None, None)`. -/
def parse_mac_address (mac : String) : Option (List Char × FlagsDict) :=
  if macRegexOk (normalizeMac mac) then
    some ((normalizeMac mac).take 6,
      [("U/L", firstByte (normalizeMac mac) &&& 2 != 0),
       ("I/G", firstByte (normalizeMac mac) &&& 1 != 0)])
  else none

example : parse_mac_address "001A2B3C4D5E" =
    some (['0', '0', '1', 'a', '2', 'b'], [("U/L", false), ("I/G", false)]) := by
  decide

example : parse_mac_address "00:1A:2B:3C:4D" = none := by decide

example : parse_mac_address "001122334455\n" =
    some (['0', '0', '1', '1', '2', '2'], [("U/L", false), ("I/G", false)]) := by
  decide

/-- Line-break characters of Python `str.splitlines` (ASCII range plus
NEL and the Unicode line and paragraph separators). -/
def isLineBreak (c : Char) : Bool :=
  decide (c.toNat = 10 ∨ c.toNat = 13 ∨ c.toNat = 11 ∨ c.toNat = 12 ∨
          c.toNat = 28 ∨ c.toNat = 29 ∨ c.toNat = 30 ∨ c.toNat = 133 ∨
          c.toNat = 8232 ∨ c.toNat = 8233)

/-- Worker for `pySplitlines`: `acc` holds the current line reversed.
"\r\n" counts as a single break; a terminator at the very end of the
input produces no trailing empty line. -/
def splitlinesGo : List Char → List Char → List (List Char)
  | [], acc => if acc.isEmpty then [] else [acc.reverse]
  | '\r' :: '\n' :: rest, acc => acc.reverse :: splitlinesGo rest []
  | c :: rest, acc =>
      if isLineBreak c then acc.reverse :: splitlinesGo rest []
      else splitlinesGo rest (c :: acc)

/-- Python `data.splitlines()`. -/
def pySplitlines (s : String) : List (List Char) :=
  splitlinesGo s.data []

example : pySplitlines "a\nbc\n" = [['a'], ['b', 'c']] := by decide

example : pySplitlines "" = [] := by decide

/-- Python `str.strip()` with no argument: drop leading and trailing
whitespace. -/
def pyStrip (cs : List Char) : List Char :=
  ((cs.dropWhile isPySpace).reverse.dropWhile isPySpace).reverse

/-- Python dict indexing assignment `d[k] = v`: overwrite the value at an
existing key in place, otherwise append the new pair at the end. -/
def dictInsert (d : List (String × String)) (k v : String) :
    List (String × String) :=
  match d with
  | [] => [(k, v)]
  | (k', v') :: rest =>
      if k' = k then (k, v) :: rest else (k', v') :: dictInsert rest k v

/-- Lookup of a key in the embedded dict, `none` when absent. -/
def dictFind? (d : List (String × String)) (k : String) : Option String :=
  match d with
  | [] => none
  | (k', v') :: rest => if k' = k then some v' else dictFind? rest k

/-- Python `d.get(k, dflt)`. -/
def dictGet (d : List (String × String)) (k dflt : String) : String :=
  (dictFind? d k).getD dflt

/-- Attempt to match the registry pattern
`([0-9A-F]{2}-[0-9A-F]{2}-[0-9A-F]{2})\s+\(hex\)\s+(.*)` at the head of
`cs`.  On success returns (group 1, group 2): the eight-character hex
triplet and the rest of the line after the whitespace that follows
"(hex)".  Both `\s+` runs are deterministic: "(hex)" starts with '(',
which is not whitespace, so each `\s+` consumes exactly the maximal
whitespace run. -/
def matchOuiAt (cs : List Char) : Option (List Char × List Char) :=
  match cs with
  | a :: b :: '-' :: c :: d :: '-' :: e :: f :: rest =>
      if isHexUpper a && isHexUpper b && isHexUpper c && isHexUpper d &&
         isHexUpper e && isHexUpper f then
        let r1 := rest.dropWhile isPySpace
        if (rest.takeWhile isPySpace).isEmpty then none
        else
          match r1 with
          | '(' :: 'h' :: 'e' :: 'x' :: ')' :: r2 =>
              if (r2.takeWhile isPySpace).isEmpty then none
              else some ([a, b, '-', c, d, '-', e, f], r2.dropWhile isPySpace)
          | _ => none
      else none
  | _ => none

/-- Python `re.search` of the registry pattern inside one line: try the
pattern at each position from the left and return the first (leftmost)
match's groups. -/
def ouiSearch (cs : List Char) : Option (List Char × List Char) :=
  match cs with
  | [] => none
  | _ :: rest =>
      match matchOuiAt cs with
      | some r => some r
      | none => ouiSearch rest

/-- One iteration of the loop body of `parse_oui_database`: if the line
matches, normalize the triplet (strip '-', lower-case), strip the
manufacturer text and insert; otherwise leave the table unchanged. -/
def processLine (d : List (String × String)) (line : List Char) :
    List (String × String) :=
  match ouiSearch line with
  | some (oui, manufacturer) =>
      dictInsert d (String.mk ((oui.filter (fun c => c != '-')).map pyLower))
        (String.mk (pyStrip manufacturer))
  | none => d

/-- `parse_oui_database(data)`: `None` or empty input gives the empty
table, otherwise fold the line matcher over `data.splitlines()`. -/
def parse_oui_database (data : Option String) : List (String × String) :=
  match data with
  | none => []
  | some s => if s.isEmpty then [] else (pySplitlines s).foldl processLine []

example : parse_oui_database (some "00-00-5E   (hex)   ICANN\n") =
    [("00005e", "ICANN")] := by decide

/-- colorama Fore.CYAN. -/
def foreCyan : String := "\x1b[36m"

/-- colorama Fore.RED. -/
def foreRed : String := "\x1b[31m"

/-- colorama Fore.GREEN. -/
def foreGreen : String := "\x1b[32m"

/-- colorama Style.RESET_ALL. -/
def styleResetAll : String := "\x1b[0m"

/-- The U/L explanation string for a set bit (source line 67). -/
def ulSetStr : String :=
  foreCyan ++ "U/L: " ++ foreRed ++ "1" ++ styleResetAll ++
    " - Esta es una dirección " ++ foreRed ++ "administrada localmente (LAA)"

/-- The U/L explanation string for a clear bit (source line 69). -/
def ulClearStr : String :=
  foreCyan ++ "U/L: " ++ foreGreen ++ "0" ++ styleResetAll ++
    " - Esta es una dirección " ++ foreGreen ++ "administrada universalmente (UAA)"

/-- The I/G explanation string for a set bit (source line 73). -/
def igSetStr : String :=
  foreCyan ++ "I/G: " ++ foreRed ++ "1" ++ styleResetAll ++
    " - Esta es una dirección de " ++ foreRed ++ "grupo/multicast"

/-- The I/G explanation string for a clear bit (source line 75). -/
def igClearStr : String :=
  foreCyan ++ "I/G: " ++ foreGreen ++ "0" ++ styleResetAll ++
    " - Esta es una dirección " ++ foreGreen ++ "individual/unicast"

/-- Python `k in flags` on the flags dict. -/
def flagsHasKey (flags : FlagsDict) (k : String) : Bool :=
  flags.any (fun p => p.1 == k)

/-- Python `flags[k]` on the flags dict.  Only evaluated under a
membership check in the source; absent keys are mapped to `false`. -/
def flagsGet (flags : FlagsDict) (k : String) : Bool :=
  match flags.find? (fun p => p.1 == k) with
  | some p => p.2
  | none => false

/-- `explain_flags(flags)`: conditionally append the U/L explanation,
then conditionally append the I/G explanation. -/
def explain_flags (flags : FlagsDict) : List String :=
  (if flagsHasKey flags "U/L" then
    [if flagsGet flags "U/L" then ulSetStr else ulClearStr]
  else []) ++
  (if flagsHasKey flags "I/G" then
    [if flagsGet flags "I/G" then igSetStr else igClearStr]
  else [])

/-- The error dictionary returned by `analyze_mac` on invalid input. -/
structure AnalysisError where
  error : String
  exampleHint : String
deriving DecidableEq

/-- The success dictionary returned by `analyze_mac`. -/
structure AnalysisSuccess where
  mac : String
  oui : String
  manufacturer : String
  flags : FlagsDict
  flag_explanations : List String
deriving DecidableEq

/-- The sentinel the source passes to `oui_database.get` for a prefix
that is absent from the table. -/
def unknownManufacturer : String := "Fabricante desconocido"

/-- `':'.join([oui[i:i+2] for i in range(0, 6, 2)])`: the 6-character
OUI re-split into three 2-character groups joined by ':'. -/
def canonicalJoin (oui : List Char) : String :=
  String.mk (oui.take 2 ++ [':'] ++ (oui.drop 2).take 2 ++ [':'] ++
    (oui.drop 4).take 2)

/-- `analyze_mac(mac_address, oui_database)`: parse the address; on
failure return the error dictionary, on success build the result
dictionary with the canonical OUI, the manufacturer lookup (with the
unknown-manufacturer sentinel as default) and the flag explanations. -/
def analyze_mac (mac_address : String) (oui_database : List (String × String)) :
    AnalysisError ⊕ AnalysisSuccess :=
  match parse_mac_address mac_address with
  | none =>
      Sum.inl
        { error := "Formato de dirección MAC inválido",
          exampleHint :=
            "Formatos válidos: 00:11:22:33:44:55, 00-11-22-33-44-55, 001122334455" }
  | some (oui, flags) =>
      Sum.inr
        { mac := mac_address,
          oui := canonicalJoin oui,
          manufacturer := dictGet oui_database (String.mk oui) unknownManufacturer,
          flags := flags,
          flag_explanations := explain_flags flags }

example :
    analyze_mac "00:00:5E:11:22:33" [("00005e", "ICANN")] =
      Sum.inr
        { mac := "00:00:5E:11:22:33",
          oui := "00:00:5e",
          manufacturer := "ICANN",
          flags := [("U/L", false), ("I/G", false)],
          flag_explanations := explain_flags [("U/L", false), ("I/G", false)] } := by
  decide

/-- Inversion of a successful `parse_mac_address`: the normalized string
passed validation, the OUI is its first six characters and the flags are
the two bits of the first byte. -/
theorem parse_mac_address_some_iff (s : String) (oui : List Char)
    (flags : FlagsDict) :
    parse_mac_address s = some (oui, flags) ↔
      macRegexOk (normalizeMac s) = true ∧ oui = (normalizeMac s).take 6 ∧
        flags = [("U/L", firstByte (normalizeMac s) &&& 2 != 0),
                 ("I/G", firstByte (normalizeMac s) &&& 1 != 0)] := by
  unfold parse_mac_address
  by_cases h : macRegexOk (normalizeMac s) = true
  · simp [h, eq_comm]
  · simp [h]

/-- Inversion of a successful `analyze_mac`: the address parsed, and
every field of the success record is determined by the parse. -/
theorem analyze_mac_inr (s : String) (t : List (String × String))
    (r : AnalysisSuccess) (h : analyze_mac s t = Sum.inr r) :
    ∃ oui flags, parse_mac_address s = some (oui, flags) ∧
      r.mac = s ∧ r.oui = canonicalJoin oui ∧
      r.manufacturer = dictGet t (String.mk oui) unknownManufacturer ∧
      r.flags = flags ∧ r.flag_explanations = explain_flags flags := by
  unfold analyze_mac at h
  cases hp : parse_mac_address s with
  | none => rw [hp] at h; exact absurd h (by simp)
  | some p =>
      obtain ⟨oui, flags⟩ := p
      rw [hp] at h
      simp only [Sum.inr.injEq] at h
      exact ⟨oui, flags, rfl, by rw [← h], by rw [← h], by rw [← h],
        by rw [← h], by rw [← h]⟩

/-- A lowercase hex character is unchanged by `pyLower`. -/
theorem pyLower_of_isHexLower (c : Char) (h : isHexLower c = true) :
    pyLower c = c := by
  unfold isHexLower at h
  rw [decide_eq_true_iff] at h
  unfold pyLower
  rw [if_neg]
  omega

/-- A lowercase hex character is not one of the separators '.', ':', '-'. -/
theorem isSep_of_isHexLower (c : Char) (h : isHexLower c = true) :
    isSep c = false := by
  unfold isHexLower at h
  rw [decide_eq_true_iff] at h
  unfold isSep
  rw [decide_eq_false_iff_not]
  omega

/-- A string that passes the MAC regex has at least 12 characters and its
first 12 characters are all lowercase hex. -/
theorem macRegexOk_shape (cs : List Char) (h : macRegexOk cs = true) :
    12 ≤ cs.length ∧ (cs.take 12).all isHexLower = true := by
  unfold macRegexOk at h
  simp only [Bool.or_eq_true, Bool.and_eq_true, decide_eq_true_iff] at h
  rcases h with ⟨h12, hall⟩ | ⟨⟨h13, hall⟩, hdrop⟩
  · exact ⟨by omega, by rw [List.take_of_length_le (by omega)]; exact hall⟩
  · exact ⟨by omega, hall⟩

/-- The first six characters of a validated normalized address form a
6-character, all-lowercase-hex list. -/
theorem macRegexOk_take6 (cs : List Char) (h : macRegexOk cs = true) :
    (cs.take 6).length = 6 ∧ (cs.take 6).all isHexLower = true := by
  obtain ⟨hlen, hall⟩ := macRegexOk_shape cs h
  constructor
  · rw [List.length_take]; omega
  · rw [List.all_eq_true] at hall ⊢
    intro x hx
    exact hall x (by
      have h6 : cs.take 6 = (cs.take 12).take 6 := by
        rw [List.take_take]
        norm_num
      exact List.mem_of_mem_take (by rw [← h6]; exact hx))

/-- Re-normalizing the colon-joined canonical form of a 6-character
lowercase-hex OUI gives back the OUI itself. -/
theorem normalizeMac_canonicalJoin (l : List Char) (hlen : l.length = 6)
    (hhex : l.all isHexLower = true) :
    normalizeMac (canonicalJoin l) = l := by
  match l, hlen with
  | [a, b, c, d, e, f], _ =>
    simp only [List.all_cons, List.all_nil, Bool.and_eq_true,
      Bool.and_true] at hhex
    obtain ⟨ha, hb, hc, hd, he, hf⟩ := hhex
    show ((String.mk [a, b, ':', c, d, ':', e, f]).data.filter
        (fun x => !isSep x)).map pyLower = [a, b, c, d, e, f]
    show ([a, b, ':', c, d, ':', e, f].filter (fun x => !isSep x)).map pyLower
        = [a, b, c, d, e, f]
    rw [show ([a, b, ':', c, d, ':', e, f].filter (fun x => !isSep x))
        = [a, b, c, d, e, f] from by
      simp [List.filter, isSep_of_isHexLower a ha, isSep_of_isHexLower b hb,
        isSep_of_isHexLower c hc, isSep_of_isHexLower d hd,
        isSep_of_isHexLower e he, isSep_of_isHexLower f hf,
        show isSep ':' = true from by decide]]
    simp [pyLower_of_isHexLower a ha, pyLower_of_isHexLower b hb,
      pyLower_of_isHexLower c hc, pyLower_of_isHexLower d hd,
      pyLower_of_isHexLower e he, pyLower_of_isHexLower f hf]

/-- Inserting a pair makes the inserted value the one found at its key. -/
theorem dictFind?_dictInsert (t : List (String × String)) (k v : String) :
    dictFind? (dictInsert t k v) k = some v := by
  induction t with
  | nil => simp [dictInsert, dictFind?]
  | cons p rest ih =>
      obtain ⟨k', v'⟩ := p
      by_cases h : k' = k
      · simp [dictInsert, dictFind?, h]
      · simp [dictInsert, dictFind?, h, ih]

/-- An address fails to parse exactly when its normalized form fails the
validation regex. -/
theorem parse_mac_address_none_iff (s : String) :
    parse_mac_address s = none ↔ macRegexOk (normalizeMac s) = false := by
  unfold parse_mac_address
  by_cases h : macRegexOk (normalizeMac s)
  · simp [h]
  · simp [h]

/-- C1 (counterexample): the input "001122334455\n" normalizes to a
13-character string, which is not "exactly 12 characters all in
0-9a-f", yet `parse_mac_address` succeeds on it rather than returning
Invalid. -/
theorem C1_counterexample :
    ¬ ((normalizeMac "001122334455\n").length = 12 ∧
        (normalizeMac "001122334455\n").all isHexLower = true) ∧
      parse_mac_address "001122334455\n" ≠ none := by decide

/-- C1 (amended): `parse_mac_address` returns Invalid (None) exactly
when the normalized string (separators removed, lower-cased) is neither
12 lowercase-hex characters nor 12 lowercase-hex characters followed by
a single trailing newline; the newline exception comes from Python's
`$` anchor.  On every other deviation (wrong length, non-hex character,
embedded whitespace) it returns Invalid with no partial result, and on
the remaining inputs it succeeds. -/
theorem C1_invalid_iff (s : String) :
    parse_mac_address s = none ↔
      ¬ (((normalizeMac s).length = 12 ∧
            (normalizeMac s).all isHexLower = true) ∨
         ((normalizeMac s).length = 13 ∧
            ((normalizeMac s).take 12).all isHexLower = true ∧
            (normalizeMac s).drop 12 = ['\n'])) := by
  rw [parse_mac_address_none_iff]
  constructor
  · intro hfalse hP
    have htrue : macRegexOk (normalizeMac s) = true := by
      unfold macRegexOk
      simp only [Bool.or_eq_true, Bool.and_eq_true, decide_eq_true_iff]
      tauto
    rw [htrue] at hfalse
    cases hfalse
  · intro hnP
    cases hb : macRegexOk (normalizeMac s) with
    | false => rfl
    | true =>
        exfalso
        apply hnP
        unfold macRegexOk at hb
        simp only [Bool.or_eq_true, Bool.and_eq_true, decide_eq_true_iff] at hb
        tauto

/-- C1 (witness for the amended theorem, instantiated at an invalid
input): "00:1A:2B:3C:4D" is too short, so it parses to None. -/
theorem C1_invalid_iff_witness :
    parse_mac_address "00:1A:2B:3C:4D" = none :=
  (C1_invalid_iff "00:1A:2B:3C:4D").mpr (by decide)

/-- C2: on every successful parse the flags dictionary is
[("U/L", byte AND 0x02 is nonzero), ("I/G", byte AND 0x01 is nonzero)]
where byte is the first two normalized characters read as hex; and the
four sample first bytes 0x02, 0x03, 0x00, 0xff give the flag pairs
(true, false), (true, true), (false, false), (true, true). -/
theorem C2_flag_bits :
    (∀ s oui flags, parse_mac_address s = some (oui, flags) →
      flags = [("U/L", firstByte (normalizeMac s) &&& 2 != 0),
               ("I/G", firstByte (normalizeMac s) &&& 1 != 0)]) ∧
    parse_mac_address "020000000000" =
      some (['0', '2', '0', '0', '0', '0'], [("U/L", true), ("I/G", false)]) ∧
    parse_mac_address "030000000000" =
      some (['0', '3', '0', '0', '0', '0'], [("U/L", true), ("I/G", true)]) ∧
    parse_mac_address "000000000000" =
      some (['0', '0', '0', '0', '0', '0'], [("U/L", false), ("I/G", false)]) ∧
    parse_mac_address "ff0000000000" =
      some (['f', 'f', '0', '0', '0', '0'], [("U/L", true), ("I/G", true)]) := by
  refine ⟨?_, by decide, by decide, by decide, by decide⟩
  intro s oui flags h
  exact ((parse_mac_address_some_iff s oui flags).mp h).2.2

/-- C2 (witness): the general flag-bit rule instantiated at the
broadcast-style first byte 0xff. -/
theorem C2_flag_bits_witness :
    ([("U/L", true), ("I/G", true)] : FlagsDict) =
      [("U/L", firstByte (normalizeMac "ff0000000000") &&& 2 != 0),
       ("I/G", firstByte (normalizeMac "ff0000000000") &&& 1 != 0)] :=
  C2_flag_bits.1 "ff0000000000" ['f', 'f', '0', '0', '0', '0']
    [("U/L", true), ("I/G", true)] (by decide)

/-- C3: for every input string and every prefix table, `analyze_mac`
returns a value of the result type — the error variant exactly when the
parse fails, the success variant otherwise.  The embedding is a total
function, so termination and absence of exceptions hold by
construction; this theorem shows the result is always one of the two
typed variants and malformed input is signaled only through the error
variant. -/
theorem C3_total_result (s : String) (t : List (String × String)) :
    (parse_mac_address s = none ∧
      ∃ e, analyze_mac s t = Sum.inl e) ∨
    (∃ oui flags, parse_mac_address s = some (oui, flags) ∧
      ∃ r, analyze_mac s t = Sum.inr r) := by
  cases hp : parse_mac_address s with
  | none =>
      refine Or.inl ⟨rfl,
        ⟨{ error := "Formato de dirección MAC inválido",
           exampleHint :=
             "Formatos válidos: 00:11:22:33:44:55, 00-11-22-33-44-55, 001122334455" },
         ?_⟩⟩
      unfold analyze_mac
      rw [hp]
  | some p =>
      obtain ⟨oui, flags⟩ := p
      refine Or.inr ⟨oui, flags, rfl,
        ⟨{ mac := s, oui := canonicalJoin oui,
           manufacturer := dictGet t (String.mk oui) unknownManufacturer,
           flags := flags, flag_explanations := explain_flags flags }, ?_⟩⟩
      unfold analyze_mac
      rw [hp]

/-- C4: the three accepted textual forms of the same address parse to
identical results, and the common OUI is "001a2b" with both flag bits
clear (first byte 0x00). -/
theorem C4_separator_insensitive :
    parse_mac_address "00:1A:2B:3C:4D:5E" = parse_mac_address "00-1A-2B-3C-4D-5E" ∧
    parse_mac_address "00-1A-2B-3C-4D-5E" = parse_mac_address "001A2B3C4D5E" ∧
    parse_mac_address "001A2B3C4D5E" =
      some (['0', '0', '1', 'a', '2', 'b'], [("U/L", false), ("I/G", false)]) ∧
    normalizeMac "00:1A:2B:3C:4D:5E" = ['0', '0', '1', 'a', '2', 'b', '3', 'c', '4', 'd', '5', 'e'] := by
  decide

/-- C5: in every success result the manufacturer field is the table's
value at the parsed OUI when that key is present, and the
unknown-manufacturer sentinel otherwise; in particular analyzing
"00:00:5E:11:22:33" against the table [("00005e", "ICANN")] succeeds
with manufacturer "ICANN" and canonical OUI "00:00:5e". -/
theorem C5_manufacturer_lookup :
    (∀ s t r, analyze_mac s t = Sum.inr r →
      ∃ oui flags, parse_mac_address s = some (oui, flags) ∧
        ((∃ v, dictFind? t (String.mk oui) = some v ∧ r.manufacturer = v) ∨
         (dictFind? t (String.mk oui) = none ∧
           r.manufacturer = unknownManufacturer))) ∧
    (∃ r, analyze_mac "00:00:5E:11:22:33" [("00005e", "ICANN")] = Sum.inr r ∧
      r.manufacturer = "ICANN" ∧ r.oui = "00:00:5e") := by
  constructor
  · intro s t r h
    obtain ⟨oui, flags, hp, _, _, hman, _, _⟩ := analyze_mac_inr s t r h
    refine ⟨oui, flags, hp, ?_⟩
    cases hf : dictFind? t (String.mk oui) with
    | some v =>
        exact Or.inl ⟨v, rfl, by rw [hman]; unfold dictGet; rw [hf]; rfl⟩
    | none =>
        exact Or.inr ⟨rfl, by rw [hman]; unfold dictGet; rw [hf]; rfl⟩
  · exact ⟨{ mac := "00:00:5E:11:22:33", oui := "00:00:5e",
             manufacturer := "ICANN",
             flags := [("U/L", false), ("I/G", false)],
             flag_explanations :=
               explain_flags [("U/L", false), ("I/G", false)] },
      by decide, rfl, rfl⟩

/-- C5 (witness): the general lookup rule of C5 instantiated at the
ICANN example. -/
theorem C5_manufacturer_lookup_witness :
    ∃ oui flags, parse_mac_address "00:00:5E:11:22:33" = some (oui, flags) ∧
      ((∃ v, dictFind? [("00005e", "ICANN")] (String.mk oui) = some v ∧
          ("ICANN" : String) = v) ∨
       (dictFind? [("00005e", "ICANN")] (String.mk oui) = none ∧
          ("ICANN" : String) = unknownManufacturer)) :=
  C5_manufacturer_lookup.1 "00:00:5E:11:22:33" [("00005e", "ICANN")]
    { mac := "00:00:5E:11:22:33", oui := "00:00:5e", manufacturer := "ICANN",
      flags := [("U/L", false), ("I/G", false)],
      flag_explanations := explain_flags [("U/L", false), ("I/G", false)] }
    (by decide)

/-- C6: the registry parser maps the sample line to exactly
[("00005e", "ICANN")]; empty and absent input give the empty table;
non-matching lines are silently skipped; the manufacturer text is
trimmed of surrounding whitespace and the triplet key is
hyphen-stripped and lower-cased. -/
theorem C6_registry_table :
    parse_oui_database (some "00-00-5E   (hex)   ICANN\n") = [("00005e", "ICANN")] ∧
    parse_oui_database (some "") = [] ∧
    parse_oui_database none = [] ∧
    parse_oui_database (some "OUI/MA-L   Organization\nsome header text\n\n") = [] ∧
    parse_oui_database
      (some "header\n00-00-5E   (hex)   ICANN\n00-1B-C5   (hex)   Trimmed Co   \njunk") =
      [("00005e", "ICANN"), ("001bc5", "Trimmed Co")] := by
  decide

/-- C7: when a prefix repeats, the last occurrence wins — inserting a
pair into the table makes that value the one found at its key, and on a
registry with a duplicated triplet the final table holds the
manufacturer of the last matching line. -/
theorem C7_last_occurrence_wins :
    (∀ t k v, dictFind? (dictInsert t k v) k = some v) ∧
    parse_oui_database
      (some "00-00-5E   (hex)   First\n00-00-5E   (hex)   Second\n") =
      [("00005e", "Second")] :=
  ⟨dictFind?_dictInsert, by decide⟩

/-- C8: for every success result, stripping the separators from the
canonical colon-joined OUI and lower-casing (the normalization step)
gives back exactly the prefix that was used for the table lookup. -/
theorem C8_roundtrip (s : String) (t : List (String × String))
    (r : AnalysisSuccess) (h : analyze_mac s t = Sum.inr r) :
    ∃ oui flags, parse_mac_address s = some (oui, flags) ∧
      normalizeMac r.oui = oui := by
  obtain ⟨oui, flags, hp, _, hoi, _, _, _⟩ := analyze_mac_inr s t r h
  refine ⟨oui, flags, hp, ?_⟩
  rw [hoi]
  have hinv := (parse_mac_address_some_iff s oui flags).mp hp
  obtain ⟨hlen, hhex⟩ := macRegexOk_take6 (normalizeMac s) hinv.1
  rw [hinv.2.1]
  exact normalizeMac_canonicalJoin _ hlen hhex

/-- C8 (witness): the round-trip instantiated at "001122334455" with an
empty table. -/
theorem C8_roundtrip_witness :
    ∃ oui flags, parse_mac_address "001122334455" = some (oui, flags) ∧
      normalizeMac "00:11:22" = oui :=
  C8_roundtrip "001122334455" []
    { mac := "001122334455", oui := "00:11:22",
      manufacturer := unknownManufacturer,
      flags := [("U/L", false), ("I/G", false)],
      flag_explanations := explain_flags [("U/L", false), ("I/G", false)] }
    (by decide)

/-- C9 (counterexample): it is not the case that the explanation strings
carry no color codes — the output of `explain_flags` contains the ANSI
escape character. -/
theorem C9_counterexample :
    ¬ (∀ s ∈ explain_flags [("U/L", false), ("I/G", false)],
        ('\x1b' : Char) ∉ s.data) := by
  decide

/-- C9 (amended): for every flags dictionary holding both keys,
`explain_flags` returns exactly two strings in fixed order — the U/L
explanation first, then the I/G explanation — but these strings embed
ANSI color escape codes (colorama styling is baked into the core
strings). -/
theorem C9_two_explanations :
    (∀ ul ig : Bool, explain_flags [("U/L", ul), ("I/G", ig)] =
      [if ul then ulSetStr else ulClearStr,
       if ig then igSetStr else igClearStr]) ∧
    ('\x1b' ∈ ulSetStr.data ∧ '\x1b' ∈ ulClearStr.data ∧
     '\x1b' ∈ igSetStr.data ∧ '\x1b' ∈ igClearStr.data) := by
  constructor
  · intro ul ig
    cases ul <;> cases ig <;> decide
  · decide

/-- C10: the input "001122334455\n" — 12 hex digits plus one trailing
newline — is accepted by `parse_mac_address` (Python's `$` anchor
permits one trailing newline) and `analyze_mac` returns the success
variant on it. -/
theorem C10_trailing_newline_accepted :
    parse_mac_address "001122334455\n" =
      some (['0', '0', '1', '1', '2', '2'], [("U/L", false), ("I/G", false)]) ∧
    (analyze_mac "001122334455\n" []).isRight = true := by
  decide
